import Mathlib

/-!
Verification of `dclmic_export/export_dataframes.py`.

Strings are modelled as `List Char` (Python text is a sequence of characters;
the source only manipulates ASCII identifiers, for which Lean's
`Char.toLower`/`Char.toUpper` agree with Python's `str.lower`/`str.capitalize`).
Each definition below is a shallow embedding of a function or code fragment of
the source file, with the source lines noted in its doc comment.
-/

/-- Convert a Lean string literal to the `List Char` representation used
throughout this development. -/
def strL (s : String) : List Char := s.toList

/-- Python `s.lower()` (ASCII). -/
def pyLower (s : List Char) : List Char := s.map Char.toLower

/-- Python `s.capitalize()` (ASCII): first character uppercased, the rest
lowercased. -/
def pyCapitalize : List Char → List Char
  | [] => []
  | c :: rest => Char.toUpper c :: rest.map Char.toLower

/-- Python `s.split("_")`: splitting on every underscore, keeping empty
segments, with `"".split("_") == [""]`. -/
def splitUnderscore : List Char → List (List Char)
  | [] => [[]]
  | c :: rest =>
    if c = '_' then [] :: splitUnderscore rest
    else
      match splitUnderscore rest with
      | [] => [[c]]
      | seg :: segs => (c :: seg) :: segs

/-- Python `" ".join(xs)`. -/
def joinSpace : List (List Char) → List Char
  | [] => []
  | [seg] => seg
  | seg :: seg2 :: segs => seg ++ ' ' :: joinSpace (seg2 :: segs)

/-- `friendlize` (export_dataframes.py lines 7-9):
`" ".join([x.capitalize() for x in s.lower().split("_")])`. -/
def friendlize (s : List Char) : List Char :=
  joinSpace ((splitUnderscore (pyLower s)).map pyCapitalize)

theorem splitUnderscore_ne_nil (s : List Char) : splitUnderscore s ≠ [] := by
  cases s with
  | nil => simp [splitUnderscore]
  | cons c rest =>
    simp only [splitUnderscore]
    split
    · simp
    · split <;> simp

theorem pyCapitalize_length (l : List Char) : (pyCapitalize l).length = l.length := by
  cases l <;> simp [pyCapitalize]

theorem joinSpace_capitalize_split_length (s : List Char) :
    (joinSpace ((splitUnderscore s).map pyCapitalize)).length = s.length := by
  induction s with
  | nil => simp [splitUnderscore, joinSpace, pyCapitalize]
  | cons c rest ih =>
    by_cases hc : c = '_'
    · subst hc
      simp only [splitUnderscore, if_pos rfl]
      cases hsp : splitUnderscore rest with
      | nil => exact absurd hsp (splitUnderscore_ne_nil rest)
      | cons seg segs =>
        rw [hsp] at ih
        simp only [List.map_cons, pyCapitalize, joinSpace] at ih ⊢
        simp [ih]
    · simp only [splitUnderscore, if_neg hc]
      cases hsp : splitUnderscore rest with
      | nil => exact absurd hsp (splitUnderscore_ne_nil rest)
      | cons seg segs =>
        rw [hsp] at ih
        cases segs with
        | nil =>
          simp only [List.map_cons, List.map_nil, joinSpace] at ih ⊢
          rw [pyCapitalize_length] at ih ⊢
          simp only [List.length_cons]
          omega
        | cons seg2 segs2 =>
          simp only [List.map_cons, joinSpace, List.length_append, List.length_cons] at ih ⊢
          rw [pyCapitalize_length] at ih ⊢
          simp only [List.length_cons]
          omega

/-- `friendlize` neither lengthens nor shortens its input: underscores are
replaced one-for-one by spaces and case changes preserve length. -/
theorem friendlize_length (s : List Char) : (friendlize s).length = s.length := by
  unfold friendlize pyLower
  rw [joinSpace_capitalize_split_length, List.length_map]

/-- C6: `friendlize` splits on underscores, capitalizes each segment and joins
with single spaces; `friendlize "median_income" = "Median Income"`,
`friendlize "Median Income" = "Median income"` (only the first segment is
capitalized when there are no underscores), hence applying it twice can differ
from applying it once. -/
theorem friendlize_examples_and_non_idempotence :
    friendlize (strL "median_income") = strL "Median Income" ∧
    friendlize (strL "Median Income") = strL "Median income" ∧
    friendlize (friendlize (strL "median_income")) ≠ friendlize (strL "median_income") := by
  decide

/-!
Column number-format resolution (`save_dfs_as_xl`, lines 49-56 and 145-185).
A column is characterised by its name, its declared dtype, and — for float64
columns — its values, modelled as `Option ℚ` (missing values are `none`).
-/

/-- Python `sub in s` for the left argument a string: substring test. -/
def startsWithL : List Char → List Char → Bool
  | [], _ => true
  | _ :: _, [] => false
  | a :: as, b :: bs => a == b && startsWithL as bs

/-- Python `sub in s` (substring containment, true for the empty `sub`). -/
def containsSub (sub : List Char) : List Char → Bool
  | [] => startsWithL sub []
  | c :: rest => startsWithL sub (c :: rest) || containsSub sub rest

/-- The pandas dtypes the format-resolution chain distinguishes
(lines 170 and 172 compare `series.dtype` against `"int64"`/`"float64"`). -/
inductive XlDType
  | int64
  | float64
  | otherDtype
deriving DecidableEq

/-- The names of the six entries of `STYLEBOOK` (lines 49-56). -/
inductive StyleName
  | thousands
  | currency
  | currency_int
  | decimal
  | percent
  | percent_int
deriving DecidableEq

/-- The `num_format` pattern of each `STYLEBOOK` entry (lines 49-56). -/
def stylePattern : StyleName → List Char
  | StyleName.thousands => strL "#,###"
  | StyleName.currency => strL "$#,##0.00"
  | StyleName.currency_int => strL "$#,##0"
  | StyleName.decimal => strL "#,##0.00"
  | StyleName.percent => strL "0.00%"
  | StyleName.percent_int => strL "0%"

/-- Membership test `style in STYLEBOOK` (line 160), returning which catalog
entry the directive names. -/
def parseStyle (s : List Char) : Option StyleName :=
  if s = strL "thousands" then some StyleName.thousands
  else if s = strL "currency" then some StyleName.currency
  else if s = strL "currency_int" then some StyleName.currency_int
  else if s = strL "decimal" then some StyleName.decimal
  else if s = strL "percent" then some StyleName.percent
  else if s = strL "percent_int" then some StyleName.percent_int
  else none

/-- The format object attached to a column: a `STYLEBOOK` entry, a one-off
custom format created by `workbook.add_format` (line 163), or `None`
(line 178). -/
inductive NumFmt
  | style (s : StyleName)
  | custom (pattern : List Char)
  | noFmt
deriving DecidableEq

/-- The `num_format` pattern a resolved format displays with. -/
def fmtPattern : NumFmt → Option (List Char)
  | NumFmt.style s => some (stylePattern s)
  | NumFmt.custom p => some p
  | NumFmt.noFmt => none

/-- `bdf.name in col_format and col_name in col_format[bdf.name]` (line 158):
the nested dict `col_format` is modelled as an association list. -/
def lookupDirective (col_format : List (List Char × List (List Char × List Char)))
    (tableName colName : List Char) : Option (List Char) :=
  (List.lookup tableName col_format).bind (List.lookup colName)

/-- Python `x % 1` for a (rational-modelled) float: `x - floor x`. -/
def pyMod1 (q : ℚ) : ℚ := q - (⌊q⌋ : ℚ)

/-- `(series.fillna(-9999) % 1 == 0).all()` (line 173). -/
def seriesAllIntegral (vals : List (Option ℚ)) : Bool :=
  vals.all (fun v => pyMod1 (v.getD (-9999)) == 0)

/-- The precedence chain of lines 158-178 resolving a column's number format. -/
def resolveNumFormat (col_format : List (List Char × List (List Char × List Char)))
    (tableName colName : List Char) (dtype : XlDType) (vals : List (Option ℚ)) : NumFmt :=
  match lookupDirective col_format tableName colName with
  | some style =>
    match parseStyle style with
    | some st => NumFmt.style st
    | none => NumFmt.custom style
  | none =>
    if colName.contains '%' || containsSub (strL "percent") (pyLower colName) then
      NumFmt.style StyleName.percent
    else if containsSub (strL "income") (pyLower colName)
        || containsSub (strL "salary") (pyLower colName)
        || containsSub (strL "wage") (pyLower colName) then
      NumFmt.style StyleName.currency
    else if dtype = XlDType.int64 then
      NumFmt.style StyleName.thousands
    else if dtype = XlDType.float64 then
      if seriesAllIntegral vals then NumFmt.style StyleName.thousands
      else NumFmt.style StyleName.decimal
    else
      NumFmt.noFmt

/-- C1: an explicit override directive for (table display name, column name)
wins over every other rule — for any dtype, values and column name: if it
names a catalog style the resolved pattern is that catalog entry's pattern,
otherwise the directive itself is used as a literal pattern. -/
theorem override_directive_precedence :
    ∀ col_format tableName colName dtype vals directive,
      lookupDirective col_format tableName colName = some directive →
      ((∀ st, parseStyle directive = some st →
          fmtPattern (resolveNumFormat col_format tableName colName dtype vals)
            = some (stylePattern st)) ∧
       (parseStyle directive = none →
          fmtPattern (resolveNumFormat col_format tableName colName dtype vals)
            = some directive)) := by
  intro cf t c d v dir h
  constructor
  · intro st hst
    simp [resolveNumFormat, h, hst, fmtPattern]
  · intro hnone
    simp [resolveNumFormat, h, hnone, fmtPattern]

/-- Witness for C1 at the spec's example: override `Sales.count = "percent"`
on an integer column named `count` resolves to the percent pattern. -/
theorem override_directive_precedence_witness :
    fmtPattern (resolveNumFormat [(strL "Sales", [(strL "count", strL "percent")])]
        (strL "Sales") (strL "count") XlDType.int64 []) = some (stylePattern StyleName.percent) :=
  (override_directive_precedence [(strL "Sales", [(strL "count", strL "percent")])]
      (strL "Sales") (strL "count") XlDType.int64 [] (strL "percent")
      (by decide)).1 StyleName.percent (by decide)

/-- The spec's wording of the float integrality test: every non-missing value
is integral, a missing value counting as (the sentinel, which is) integral. -/
def specNonMissingIntegral (v : Option ℚ) : Bool :=
  match v with
  | none => true
  | some q => q.den == 1

theorem pyMod1_zero_iff (q : ℚ) : pyMod1 q = 0 ↔ q.den = 1 := by
  unfold pyMod1
  rw [sub_eq_zero]
  constructor
  · intro h
    rw [h]
    exact Rat.den_intCast _
  · intro h
    have hq : (q.num : ℚ) = q := (Rat.den_eq_one_iff q).mp h
    rw [← hq, Int.floor_intCast]

theorem seriesAllIntegral_eq_spec (vals : List (Option ℚ)) :
    seriesAllIntegral vals = vals.all specNonMissingIntegral := by
  unfold seriesAllIntegral
  congr 1
  funext v
  cases v with
  | none =>
    have hcast : ((-9999 : ℤ) : ℚ) = (-9999 : ℚ) := by norm_num
    have h0 : pyMod1 (-9999 : ℚ) = 0 := by
      rw [pyMod1_zero_iff, ← hcast]
      exact Rat.den_intCast _
    simp [specNonMissingIntegral, h0]
  | some q =>
    simp only [Option.getD_some, specNonMissingIntegral]
    by_cases hd : q.den = 1
    · simp [beq_iff_eq, pyMod1_zero_iff, hd]
    · simp [beq_iff_eq, pyMod1_zero_iff, hd]

/-- C5: with no override directive and no percent/currency name match, a
float64 column resolves to `thousands` when every non-missing value is
integral (missing treated as the integral sentinel) and to `decimal` when at
least one value has a fractional part. -/
theorem float_column_integrality_rule :
    ∀ col_format tableName colName vals,
      lookupDirective col_format tableName colName = none →
      (colName.contains '%' || containsSub (strL "percent") (pyLower colName)) = false →
      (containsSub (strL "income") (pyLower colName)
        || containsSub (strL "salary") (pyLower colName)
        || containsSub (strL "wage") (pyLower colName)) = false →
      resolveNumFormat col_format tableName colName XlDType.float64 vals =
        NumFmt.style
          (if vals.all specNonMissingIntegral then StyleName.thousands else StyleName.decimal) := by
  intro cf t c vals h1 h2 h3
  simp only [resolveNumFormat, h1, h2, h3, seriesAllIntegral_eq_spec]
  rw [apply_ite NumFmt.style]
  simp

/-- Witness for C5: `[1, 2, 3]` resolves to `thousands`, `[1, 5/2]` to
`decimal`, on an override-free, percent/currency-free column. -/
theorem float_column_integrality_rule_witness :
    resolveNumFormat [] (strL "Population Totals") (strL "count") XlDType.float64
        [some 1, some 2, some 3] = NumFmt.style StyleName.thousands ∧
    resolveNumFormat [] (strL "Population Totals") (strL "count") XlDType.float64
        [some 1, some (mkRat 5 2)] = NumFmt.style StyleName.decimal := by
  constructor
  · rw [float_column_integrality_rule [] (strL "Population Totals") (strL "count")
      [some 1, some 2, some 3] (by decide) (by decide) (by decide)]
    decide
  · rw [float_column_integrality_rule [] (strL "Population Totals") (strL "count")
      [some 1, some (mkRat 5 2)] (by decide) (by decide) (by decide)]
    decide

/-!
Sheet naming, title, headers and autofilter (`save_dfs_as_xl`, lines 58-124
and 188). `renderSheet` models one iteration of the loop over
`list_of_frames` for the frame at position `i`, given the `sheet_names` list,
the `tab_names` dict (association list), the `friendly_names` flag, the
frame's column names and its number of data rows. Out-of-range access to
`sheet_names` is modelled separately (`exportSheetIds` below); here `getD`
stands for the in-range `sheet_names[i]`.
-/

/-- Python `str(i)` for a natural number (fuel-based decimal rendering). -/
def natDigitsAux : Nat → Nat → List Char
  | 0, _ => []
  | fuel + 1, n =>
    if n < 10 then [Char.ofNat (48 + n)]
    else natDigitsAux fuel (n / 10) ++ [Char.ofNat (48 + n % 10)]

/-- Decimal representation of a natural number, as Python `str` renders it. -/
def natDecimalRepr (n : Nat) : List Char := natDigitsAux (n + 1) n

/-- `f"Sheet{i}"` (line 66). -/
def sheetDefaultName (i : Nat) : List Char := strL "Sheet" ++ natDecimalRepr i

/-- The row of the first data cell: `startrow=3` in `bdf.to_excel` (line 78). -/
def dataStartRow : Nat := 3

/-- The row the column headers are written to: `worksheet.write(2, ...)`
(line 104). -/
def headerRow : Nat := 2

/-- The four arguments passed to `worksheet.autofilter` (line 188). -/
structure FilterRegion where
  firstRow : Nat
  firstCol : Nat
  lastRow : Nat
  lastCol : Nat
deriving DecidableEq

/-- The per-sheet outputs of one iteration of the `save_dfs_as_xl` loop. -/
structure RenderedSheet where
  bdfName : List Char
  sheetId : List Char
  title : List Char
  headers : List (List Char)
  autofilterRegion : FilterRegion
deriving DecidableEq

/-- One iteration of the loop of lines 58-188: derive `bdf.name` and the
worksheet name (lines 58-72), the merged-title text (line 120), the header
texts (lines 103-104) and the autofilter call (line 188). -/
def renderSheet (i : Nat) (sheet_names : List (List Char))
    (tab_names : List (List Char × List Char)) (friendly_names : Bool)
    (cols : List (List Char)) (nrows : Nat) : RenderedSheet :=
  let bdfName := if sheet_names.isEmpty then sheetDefaultName i else sheet_names.getD i []
  let sheetName0 :=
    if sheet_names.isEmpty then bdfName
    else
      match List.lookup bdfName tab_names with
      | some t => t.take 31
      | none => (sheet_names.getD i []).take 31
  let sheet_name := if friendly_names then friendlize sheetName0 else sheetName0
  { bdfName := bdfName
    sheetId := sheet_name
    title := bdfName
    headers := cols.map (fun c => if friendly_names then friendlize c else c)
    autofilterRegion :=
      { firstRow := 2, firstCol := 1, lastRow := nrows, lastCol := cols.length } }

/-- C2 (divergence witness): for a table of 5 data rows and 3 columns the code
calls `autofilter(2, 1, 5, 3)` — the region ends at row 5 although the data,
written from row `dataStartRow = 3`, ends at row 7; the claimed last row
`2 + nrows = 7` differs from the `bdf.shape[0] = 5` the code passes. -/
theorem autofilter_region_at_five_rows :
    (renderSheet 0 [strL "Sales"] [] true [strL "a", strL "b", strL "c"] 5).autofilterRegion
      = { firstRow := 2, firstCol := 1, lastRow := 5, lastCol := 3 } ∧
    dataStartRow + 5 - 1 = 7 ∧
    (renderSheet 0 [strL "Sales"] [] true [strL "a", strL "b", strL "c"] 5).autofilterRegion.lastRow
      ≠ 2 + 5 := by
  refine ⟨rfl, rfl, ?_⟩
  decide

/-- C3 counterexample: with `friendly_names=True`, the merged title cell holds
the raw display name (`bdf.name`), not its friendlification; and an identifier
override taken from `tab_names` IS friendlified before being used as the
sheet identifier. -/
theorem friendly_naming_counterexample :
    (renderSheet 0 [strL "median_income"] [] true [strL "a"] 1).title = strL "median_income" ∧
    friendlize (strL "median_income") ≠ strL "median_income" ∧
    (renderSheet 0 [strL "tbl"] [(strL "tbl", strL "my_tab")] true [strL "a"] 1).sheetId
      = friendlize (strL "my_tab") ∧
    friendlize (strL "my_tab") ≠ strL "my_tab" := by
  refine ⟨rfl, by decide, rfl, by decide⟩

/-- C3 (amended): with the friendly flag on, friendlification is applied to
every column header and to the sheet identifier in every branch (derived,
auto-generated, or taken from the identifier override); the merged title cell
text is the raw display name regardless of the flag. -/
theorem friendly_naming_application_sites :
    ∀ i sheet_names tab_names cols nrows,
      (renderSheet i sheet_names tab_names true cols nrows).headers = cols.map friendlize ∧
      (renderSheet i sheet_names tab_names true cols nrows).title
        = (renderSheet i sheet_names tab_names false cols nrows).title ∧
      (renderSheet i sheet_names tab_names true cols nrows).sheetId
        = friendlize ((renderSheet i sheet_names tab_names false cols nrows).sheetId) := by
  intro i sn tn cols nrows
  exact ⟨rfl, rfl, rfl⟩

/-- C7 counterexample: auto-generated identifiers (`f"Sheet{i}"`, line 66) are
never truncated, so the table at index `10^26` of an export with no explicit
display names gets the 32-character identifier `Sheet1000...0`. -/
theorem sheet_identifier_limit_counterexample :
    31 < ((renderSheet (10 ^ 26) [] [] true [] 0).sheetId).length := by decide

/-- C7 (amended): whenever the display-name list is supplied (so the sheet
identifier is derived from a display name or from the `tab_names` override),
the identifier is truncated to 31 characters before friendlification, which
preserves length — hence it is at most 31 characters long. -/
theorem sheet_identifier_within_limit :
    ∀ i sheet_names tab_names friendly_names cols nrows,
      sheet_names ≠ [] →
      ((renderSheet i sheet_names tab_names friendly_names cols nrows).sheetId).length ≤ 31 := by
  intro i sn tn fn cols nrows hne
  cases sn with
  | nil => exact absurd rfl hne
  | cons a as =>
    simp only [renderSheet, List.isEmpty_cons, Bool.false_eq_true, if_false]
    cases hl : List.lookup ((a :: as).getD i []) tn with
    | none =>
      cases fn with
      | true =>
        simp only [if_true, hl, friendlize_length, List.length_take]
        omega
      | false =>
        simp only [Bool.false_eq_true, if_false, hl, List.length_take]
        omega
    | some t =>
      cases fn with
      | true =>
        simp only [if_true, hl, friendlize_length, List.length_take]
        omega
      | false =>
        simp only [Bool.false_eq_true, if_false, hl, List.length_take]
        omega

/-- Witness for C7 (amended) at a 41-character display name. -/
theorem sheet_identifier_within_limit_witness :
    ((renderSheet 0 [strL "a_very_long_population_table_display_name"] [] true [] 0).sheetId).length
      ≤ 31 :=
  sheet_identifier_within_limit 0 [strL "a_very_long_population_table_display_name"] [] true [] 0
    (by decide)

/-!
Totality of the export loop (`save_dfs_as_xl`, lines 58-67): when the
`sheet_names` list is non-empty (truthy), iteration `i` evaluates
`sheet_names[i]`, which raises `IndexError` as soon as `i` reaches
`len(sheet_names)`. `exportSheetIds sheet_names tab_names friendly i k`
processes the frames at positions `i, i+1, ..., i+k-1` in order and returns
either all their sheet identifiers or `Except.error j` for the first
position `j` whose name lookup raises. -/
def exportSheetIds (sheet_names : List (List Char)) (tab_names : List (List Char × List Char))
    (friendly_names : Bool) : Nat → Nat → Except Nat (List (List Char))
  | _, 0 => Except.ok []
  | i, k + 1 =>
    if sheet_names.isEmpty = false ∧ sheet_names.length ≤ i then Except.error i
    else
      match exportSheetIds sheet_names tab_names friendly_names (i + 1) k with
      | Except.error j => Except.error j
      | Except.ok rest =>
        Except.ok ((renderSheet i sheet_names tab_names friendly_names [] 0).sheetId :: rest)

theorem exportSheetIds_error_of_short (sheet_names : List (List Char))
    (tab_names : List (List Char × List Char)) (friendly_names : Bool) (hne : sheet_names ≠ []) :
    ∀ k i, i ≤ sheet_names.length → sheet_names.length < i + k →
      exportSheetIds sheet_names tab_names friendly_names i k
        = Except.error sheet_names.length := by
  intro k
  induction k with
  | zero => intro i hle hlt; omega
  | succ k ih =>
    intro i hle hlt
    by_cases hi : sheet_names.length ≤ i
    · have hieq : i = sheet_names.length := le_antisymm hle hi
      have hcond : sheet_names.isEmpty = false ∧ sheet_names.length ≤ i := by
        constructor
        · cases sheet_names with
          | nil => exact absurd rfl hne
          | cons a as => rfl
        · exact hi
      rw [exportSheetIds, if_pos hcond, hieq]
    · have hrec := ih (i + 1) (by omega) (by omega)
      simp only [exportSheetIds, hrec]
      rw [if_neg]
      intro hcond
      exact hi hcond.2

/-- C9: when a non-empty `sheet_names` list is shorter than the frame list,
the export loop raises an index-out-of-range error exactly when it reaches the
first frame with no corresponding name — position `len(sheet_names)` — instead
of auto-naming the remaining frames. -/
theorem export_raises_on_short_sheet_names :
    ∀ sheet_names tab_names friendly_names nFrames,
      sheet_names ≠ [] →
      sheet_names.length < nFrames →
      exportSheetIds sheet_names tab_names friendly_names 0 nFrames
        = Except.error sheet_names.length := by
  intro sn tn fn nFrames hne hlt
  exact exportSheetIds_error_of_short sn tn fn hne nFrames 0 (Nat.zero_le _) (by omega)

/-- Witness for C9: two frames but a single display name raise at position 1. -/
theorem export_raises_on_short_sheet_names_witness :
    exportSheetIds [strL "Alpha"] [] true 0 2 = Except.error 1 :=
  export_raises_on_short_sheet_names [strL "Alpha"] [] true 2 (by decide) (by decide)

/-!
`upload_to_sql` (lines 262-336). The dataframe is modelled column-major as a
list of named, typed columns; cell values are text, integers, or tz-aware UTC
timestamps — the kinds relevant to the claims. The database connection is an
external collaborator: a row-insert either succeeds or raises, captured by the
oracle `insertFails`; the calls issued against it are recorded as events.
-/

/-- Python `str(n)` for an integer. -/
def intRepr (n : Int) : List Char :=
  if n < 0 then '-' :: natDecimalRepr n.natAbs else natDecimalRepr n.natAbs

/-- Zero-padded two-digit decimal field. -/
def pad2 (n : Nat) : List Char := if n < 10 then '0' :: natDecimalRepr n else natDecimalRepr n

/-- Zero-padded four-digit decimal field (years). -/
def pad4 (n : Nat) : List Char :=
  if n < 10 then '0' :: '0' :: '0' :: natDecimalRepr n
  else if n < 100 then '0' :: '0' :: natDecimalRepr n
  else if n < 1000 then '0' :: natDecimalRepr n
  else natDecimalRepr n

/-- The `%Y-%m-%d` rendering of a date — what `dt.strftime("%Y-%m-%d")`
(line 289) produces. -/
def ymdRepr (y m d : Nat) : List Char :=
  pad4 y ++ '-' :: (pad2 m ++ '-' :: pad2 d)

/-- The default pandas string rendering of a tz-aware UTC timestamp, as
produced by `astype(str)`: `YYYY-MM-DD HH:MM:SS+00:00`. -/
def timestampRepr (y m d hh mm ss : Nat) : List Char :=
  ymdRepr y m d ++ ' ' :: (pad2 hh ++ ':' :: (pad2 mm ++ ':' :: (pad2 ss ++ strL "+00:00")))

/-- A cell value of the bulk loader's input dataframe. -/
inductive PyVal
  | intV (n : Int)
  | strV (s : List Char)
  | dtV (y m d hh mm ss : Nat)
deriving DecidableEq

/-- Python `str(v)` / pandas `astype(str)` on one cell. -/
def pyStr : PyVal → List Char
  | PyVal.intV n => intRepr n
  | PyVal.strV s => s
  | PyVal.dtV y m d hh mm ss => timestampRepr y m d hh mm ss

/-- The pandas dtypes `upload_to_sql` distinguishes: line 288 selects columns
of dtype `datetime64[ns, UTC]`; `astype(str)` yields `object`. -/
inductive SqlDType
  | datetimeUTC
  | intType
  | objType
deriving DecidableEq

/-- One named column of the bulk loader's input dataframe. -/
structure DfCol where
  name : List Char
  dtype : SqlDType
  values : List PyVal
deriving DecidableEq

/-- Column renaming (lines 275-278):
`y.replace(" ", "_").replace(":", "").replace("(", "").replace(")", "").lower()`. -/
def normalizeColName (s : List Char) : List Char :=
  ((s.map (fun c => if c = ' ' then '_' else c)).filter
    (fun c => !(c == ':' || c == '(' || c == ')'))).map Char.toLower

/-- `df[x].dt.strftime("%Y-%m-%d")` on one cell (line 289). -/
def strftimeYMD : PyVal → PyVal
  | PyVal.dtV y m d _ _ _ => PyVal.strV (ymdRepr y m d)
  | v => v

/-- The per-column body of the loop of lines 285-289: first
`df[x] = df[x].astype(str)` (which also makes the column's dtype `object`),
then the datetime check `x in df.select_dtypes(include=["datetime64[ns, UTC]"]).columns`
— evaluated against the dataframe AFTER the `astype(str)` assignment — and,
when it holds, the `strftime("%Y-%m-%d")` reformatting. -/
def coerceCol (c : DfCol) : DfCol :=
  let c1 : DfCol :=
    { c with values := c.values.map (fun v => PyVal.strV (pyStr v)), dtype := SqlDType.objType }
  if c1.dtype = SqlDType.datetimeUTC then
    { c1 with values := c1.values.map strftimeYMD }
  else c1

/-- `len(df)`: the common length of the columns (length of the first). -/
def dfNumRows : List DfCol → Nat
  | [] => 0
  | c :: _ => c.values.length

/-- The externally visible calls `upload_to_sql` makes against the cursor and
connection, in order. -/
inductive SqlEvent
  | execDropTable
  | execCreateTable
  | execInsert (rowIdx : Nat)
  | logInsertFailure (rowIdx : Nat)
  | commitDb
deriving DecidableEq

/-- The outcome of an `upload_to_sql` call: the ordered event trace and the
caller's dataframe as it stands after the call (the function renames columns
and re-assigns every column of the caller's object in place, lines 275-289). -/
structure SqlResult where
  events : List SqlEvent
  df : List DfCol
deriving DecidableEq

/-- `upload_to_sql` (lines 262-336): rename columns, stringify every column,
optionally drop and recreate the table (each DDL statement attempted and
committed inside its own try/except), then insert the rows one at a time —
a row whose insert raises (per the `insertFails` oracle) is logged and the
loop continues — and finally commit. -/
def upload_to_sql (insertFails : Nat → Bool) (df : List DfCol) (drop : Bool) : SqlResult :=
  let df1 := df.map (fun c => { c with name := normalizeColName c.name })
  let df2 := df1.map coerceCol
  let n := dfNumRows df2
  let rowEvents := (List.range n).flatMap
    (fun i =>
      if insertFails i then [SqlEvent.execInsert i, SqlEvent.logInsertFailure i]
      else [SqlEvent.execInsert i])
  { events :=
      (if drop then
        [SqlEvent.execDropTable, SqlEvent.commitDb, SqlEvent.execCreateTable, SqlEvent.commitDb]
      else []) ++ rowEvents ++ [SqlEvent.commitDb]
    df := df2 }

theorem dfNumRows_transformed (df : List DfCol) :
    dfNumRows ((df.map (fun c => { c with name := normalizeColName c.name })).map coerceCol)
      = dfNumRows df := by
  cases df <;> simp [dfNumRows, coerceCol]

/-- C4 failing input: the `astype(str)` on line 286 makes every column dtype
`object` before line 288 checks for `datetime64[ns, UTC]`, so the
`strftime("%Y-%m-%d")` branch never fires: a datetime cell is inserted in the
default rendering `2020-01-02 00:00:00+00:00`, not as `2020-01-02` — although
the (dead) line 289 would have produced exactly `ymdRepr 2020 1 2`. -/
theorem datetime_column_default_rendering :
    (coerceCol { name := strL "event_date", dtype := SqlDType.datetimeUTC,
                 values := [PyVal.dtV 2020 1 2 0 0 0] }).values
      = [PyVal.strV (strL "2020-01-02 00:00:00+00:00")] ∧
    strftimeYMD (PyVal.dtV 2020 1 2 0 0 0) = PyVal.strV (ymdRepr 2020 1 2) ∧
    ymdRepr 2020 1 2 = strL "2020-01-02" ∧
    strL "2020-01-02 00:00:00+00:00" ≠ strL "2020-01-02" := by
  refine ⟨rfl, rfl, rfl, by decide⟩

/-- C8: a failing insert is logged and isolated — every row below the
dataframe's row count is attempted (`execInsert`), a failing row additionally
produces a failure log instead of aborting, and the trace always ends with the
final `con.commit()`. -/
theorem upload_events_eq (insertFails : Nat → Bool) (df : List DfCol) (drop : Bool) :
    (upload_to_sql insertFails df drop).events =
      (if drop then
        [SqlEvent.execDropTable, SqlEvent.commitDb, SqlEvent.execCreateTable, SqlEvent.commitDb]
      else [])
        ++ (List.range (dfNumRows df)).flatMap
            (fun i =>
              if insertFails i then [SqlEvent.execInsert i, SqlEvent.logInsertFailure i]
              else [SqlEvent.execInsert i])
        ++ [SqlEvent.commitDb] := by
  simp only [upload_to_sql]
  rw [dfNumRows_transformed]

theorem upload_row_failure_isolation :
    ∀ insertFails df drop j,
      j < dfNumRows df →
      SqlEvent.execInsert j ∈ (upload_to_sql insertFails df drop).events ∧
      (insertFails j = true →
        SqlEvent.logInsertFailure j ∈ (upload_to_sql insertFails df drop).events) ∧
      (upload_to_sql insertFails df drop).events.getLast? = some SqlEvent.commitDb := by
  intro insertFails df drop j hj
  rw [upload_events_eq]
  refine ⟨?_, ?_, ?_⟩
  · simp only [List.mem_append]
    left; right
    simp only [List.mem_flatMap]
    refine ⟨j, List.mem_range.mpr hj, ?_⟩
    by_cases hf : insertFails j <;> simp [hf]
  · intro hf
    simp only [List.mem_append]
    left; right
    simp only [List.mem_flatMap]
    exact ⟨j, List.mem_range.mpr hj, by simp [hf]⟩
  · rw [List.append_assoc, List.getLast?_append_of_ne_nil _ (by simp),
      List.getLast?_append_cons]
    rfl

/-- A concrete three-row, one-column dataframe for the C8 witness. -/
def sampleDf : List DfCol :=
  [{ name := strL "Employer Name"
     dtype := SqlDType.objType
     values := [PyVal.strV (strL "a"), PyVal.strV (strL "b"), PyVal.strV (strL "c")] }]

/-- Witness for C8: with row 1 of 3 failing, row 2 is still attempted. -/
theorem upload_row_failure_isolation_witness :
    SqlEvent.execInsert 2 ∈ (upload_to_sql (fun i => i == 1) sampleDf true).events :=
  (upload_row_failure_isolation (fun i => i == 1) sampleDf true 2 (by decide)).1

/-- C10: after `upload_to_sql` returns, the caller's dataframe (mutated in
place, re-exposed as the `df` field of the result) has every column name
rewritten by `normalizeColName` — spaces to underscores, `:`/`(`/`)` removed,
lowercased — and every value replaced by its string representation. -/
theorem upload_mutates_caller_frame :
    ∀ insertFails df drop,
      (upload_to_sql insertFails df drop).df.map DfCol.name
          = df.map (fun c => normalizeColName c.name) ∧
      (upload_to_sql insertFails df drop).df.map DfCol.values
          = df.map (fun c => c.values.map (fun v => PyVal.strV (pyStr v))) := by
  intro insertFails df drop
  constructor <;>
    simp [upload_to_sql, coerceCol, List.map_map, Function.comp]
